import Mathlib

/-!
  Verification of the session/data-consistency layer of the
  investment-portfolio dashboard, shallowly embedded from the TypeScript
  sources.

  The embedding turns stateful code into explicit state passing: browser
  `localStorage` becomes a `Store` record, `Date.now()` becomes an explicit
  `now : Nat` argument (milliseconds), and the in-memory service singletons
  become explicit state records threaded through each call.  Network
  effects (the supabase round trips) are replaced by explicit parameters
  giving their outcome, plus counters (`probeCount`, `fetchCount`,
  `roundTrips`) recording how many round trips each call issues, so that
  claims about "no network call" and "exactly one round trip" become
  statements about those counters.
-/

namespace SessionManager

/-- kernel-computable model of the JavaScript `String.prototype.startsWith`
test (Lean's own `String.startsWith` uses well-founded recursion and does
not reduce in the kernel). -/
def strStartsWith (s pre : String) : Bool :=
  pre.data.isPrefixOf s.data

/-- `LocationState` from `src/utils/sessionManager.ts` (the `referrer`
field, which no claim touches, is omitted). -/
structure LocationState where
  path : String
  search : String
  hash : String
  timestamp : Nat
deriving DecidableEq, Repr

/-- `SessionState` stored under the `passiveWealth_lastLocation` key. -/
structure SessionState where
  lastLocation : Option String
  timestamp : Nat
  locationState : Option LocationState
deriving DecidableEq, Repr

/-- the pending-redirect record stored under `passiveWealth_pendingRedirect`
(the `userAgent` field, which no claim touches, is omitted). -/
structure PendingRedirect where
  redirectTo : String
  timestamp : Nat
deriving DecidableEq, Repr

/-- the slice of `localStorage` the session manager reads and writes:
the location key and the pending-redirect key. -/
structure Store where
  location : Option SessionState
  pending : Option PendingRedirect
deriving DecidableEq, Repr

/-- `SESSION_TIMEOUT = 24 * 60 * 60 * 1000` (24 hours, ms). -/
def SESSION_TIMEOUT : Nat := 24 * 60 * 60 * 1000

/-- the 5-minute pending-redirect expiry used in `getPendingRedirect`. -/
def REDIRECT_TIMEOUT : Nat := 5 * 60 * 1000

/-- the capture-time exclusion test inlined in `storeLocation` (line 53 of
`sessionManager.ts`): auth callback, exact root, or the auth subtree. -/
def storeLocationExcluded (path : String) : Bool :=
  path == "/auth/callback" || path == "/" || strStartsWith path "/auth/"

/-- the `SessionState` that `storeLocation` writes for a non-excluded path. -/
def capturedSession (now : Nat) (path search hash : String) : SessionState :=
  { lastLocation := some (path ++ search ++ hash)
    timestamp := now
    locationState := some
      { path := path, search := search, hash := hash, timestamp := now } }

/-- `storeLocation(path, search, hash)`: a no-op for excluded paths,
otherwise overwrites the location key with a fresh `SessionState`. -/
def storeLocation (now : Nat) (path search hash : String) (st : Store) : Store :=
  if storeLocationExcluded path then st
  else { st with location := some (capturedSession now path search hash) }

/-- `storePendingRedirect(redirectTo, state)`: overwrites the pending key. -/
def storePendingRedirect (now : Nat) (redirectTo : String) (st : Store) : Store :=
  { st with pending := some { redirectTo := redirectTo, timestamp := now } }

/-- `clearPendingRedirect()`. -/
def clearPendingRedirect (st : Store) : Store :=
  { st with pending := none }

/-- `clearStoredLocation()`. -/
def clearStoredLocation (st : Store) : Store :=
  { st with location := none }

/-- `getPendingRedirect()`: read-then-delete with a 5-minute expiry; an
expired entry is purged and reported absent. -/
def getPendingRedirect (now : Nat) (st : Store) : Option String × Store :=
  match st.pending with
  | none => (none, st)
  | some pr =>
    if now - pr.timestamp > REDIRECT_TIMEOUT then (none, clearPendingRedirect st)
    else (some pr.redirectTo, clearPendingRedirect st)

/-- `getStoredLocation()`: purges an entry older than 24 hours; otherwise
returns the stored `locationState`, falling back to a synthesized state
built from `lastLocation || '/momentum'`. -/
def getStoredLocation (now : Nat) (st : Store) : Option LocationState × Store :=
  match st.location with
  | none => (none, st)
  | some ss =>
    if now - ss.timestamp > SESSION_TIMEOUT then (none, clearStoredLocation st)
    else
      match ss.locationState with
      | some ls => (some ls, st)
      | none =>
        (some
          { path := match ss.lastLocation with
              | some l => if l == "" then "/momentum" else l
              | none => "/momentum"
            search := ""
            hash := ""
            timestamp := ss.timestamp }, st)

/-- the `excludedPaths` array of `shouldStorePath`. -/
def excludedPaths : List String :=
  ["/auth/callback", "/", "/login", "/signup", "/auth"]

/-- `shouldStorePath(path)`: the resolver-side filter.  The three
`excludedPatterns` regexes translate to a `/auth/` leading-segment test, a
root-with-query test, and an exact-root test. -/
def shouldStorePath (path : String) : Bool :=
  !excludedPaths.contains path &&
  !(strStartsWith path "/auth/" || strStartsWith path "/?" || path == "/")

/-- `getDefaultRedirectPath()`. -/
def getDefaultRedirectPath : String := "/momentum"

/-- `getRedirectPath()`: pending redirect first (consumed), then the stored
location re-filtered through `shouldStorePath`, then the default path. -/
def getRedirectPath (now : Nat) (st : Store) : String × Store :=
  match getPendingRedirect now st with
  | (some r, st1) => (r, st1)
  | (none, st1) =>
    match getStoredLocation now st1 with
    | (some ls, st2) =>
      if shouldStorePath ls.path then (ls.path ++ ls.search ++ ls.hash, st2)
      else (getDefaultRedirectPath, st2)
    | (none, st2) => (getDefaultRedirectPath, st2)

theorem excludedPaths_contains_eq (p : String) :
    excludedPaths.contains p =
      (p == "/auth/callback" || p == "/" || p == "/login" ||
       p == "/signup" || p == "/auth") := by
  simp only [excludedPaths, List.contains, List.elem]
  cases p == "/auth/callback" <;> cases p == "/" <;> cases p == "/login" <;>
    cases p == "/signup" <;> cases p == "/auth" <;> rfl

theorem shouldStorePath_not_captureExcluded {p : String}
    (h : shouldStorePath p = true) : storeLocationExcluded p = false := by
  simp only [shouldStorePath, excludedPaths_contains_eq, Bool.and_eq_true,
    Bool.not_eq_true', Bool.or_eq_false_iff] at h
  simp only [storeLocationExcluded, Bool.or_eq_false_iff]
  exact ⟨⟨h.1.1.1.1.1, h.1.1.1.1.2⟩, h.2.1.1⟩

theorem storeLocation_pending (now : Nat) (p s h : String) (st : Store) :
    (storeLocation now p s h st).pending = st.pending := by
  unfold storeLocation
  split <;> rfl

theorem storeLocation_not_excluded (now : Nat) (p s h : String) (st : Store)
    (hex : storeLocationExcluded p = false) :
    storeLocation now p s h st = { st with location := some (capturedSession now p s h) } := by
  unfold storeLocation
  rw [hex]
  rfl

theorem getPendingRedirect_none (now : Nat) (st : Store) (h : st.pending = none) :
    getPendingRedirect now st = (none, st) := by
  unfold getPendingRedirect
  rw [h]

theorem getStoredLocation_some (now : Nat) (st : Store) (ss : SessionState)
    (ls : LocationState) (hloc : st.location = some ss)
    (hfresh : ¬ now - ss.timestamp > SESSION_TIMEOUT)
    (hls : ss.locationState = some ls) :
    getStoredLocation now st = (some ls, st) := by
  unfold getStoredLocation
  rw [hloc]
  simp [hfresh, hls]

theorem getRedirectPath_no_pending (now : Nat) (st : Store) (h : st.pending = none) :
    getRedirectPath now st =
      match getStoredLocation now st with
      | (some ls, st2) =>
        if shouldStorePath ls.path then (ls.path ++ ls.search ++ ls.hash, st2)
        else (getDefaultRedirectPath, st2)
      | (none, st2) => (getDefaultRedirectPath, st2) := by
  unfold getRedirectPath
  rw [getPendingRedirect_none now st h]

theorem getRedirectPath_located (now : Nat) (st : Store) (ss : SessionState)
    (ls : LocationState) (hpend : st.pending = none) (hloc : st.location = some ss)
    (hfresh : ¬ now - ss.timestamp > SESSION_TIMEOUT)
    (hls : ss.locationState = some ls) :
    getRedirectPath now st =
      (if shouldStorePath ls.path then ls.path ++ ls.search ++ ls.hash
       else getDefaultRedirectPath, st) := by
  rw [getRedirectPath_no_pending now st hpend,
    getStoredLocation_some now st ss ls hloc hfresh hls]
  by_cases hsp : shouldStorePath ls.path = true
  · simp [hsp]
  · simp only [Bool.not_eq_true] at hsp
    simp [hsp]

end SessionManager

namespace SessionManager

/-- Claim C4 (confirmed): with an unexpired `PendingRedirect A` and a
stored `LocationState B` whose full path differs from `A`'s target, the
first `getRedirectPath` call returns `A.redirectTo` and deletes the
pending redirect; a second call (while the location is unexpired) returns
the stored-location full path (when it passes `shouldStorePath`) or the
default path.  The pending redirect is consumed exactly once. -/
theorem pendingRedirect_consumed_once (st : Store) (A : PendingRedirect)
    (B : SessionState) (Bl : LocationState) (now now2 : Nat)
    (hA : st.pending = some A)
    (hAfresh : ¬ (now - A.timestamp > REDIRECT_TIMEOUT))
    (hB : st.location = some B)
    (hBl : B.locationState = some Bl)
    (_hne : Bl.path ++ Bl.search ++ Bl.hash ≠ A.redirectTo)
    (hBfresh : ¬ (now2 - B.timestamp > SESSION_TIMEOUT)) :
    (getRedirectPath now st).1 = A.redirectTo ∧
    (getRedirectPath now st).2.pending = none ∧
    (((getRedirectPath now2 (getRedirectPath now st).2).1
        = Bl.path ++ Bl.search ++ Bl.hash ∧ shouldStorePath Bl.path = true) ∨
     (getRedirectPath now2 (getRedirectPath now st).2).1 = getDefaultRedirectPath) := by
  have hfirst : getRedirectPath now st = (A.redirectTo, clearPendingRedirect st) := by
    unfold getRedirectPath getPendingRedirect
    rw [hA]
    simp [hAfresh]
  rw [hfirst]
  refine ⟨rfl, rfl, ?_⟩
  have hloc1 : (clearPendingRedirect st).location = some B := hB
  have hsecond := getRedirectPath_located now2 (clearPendingRedirect st) B Bl
    rfl hloc1 hBfresh hBl
  rw [hsecond]
  by_cases hsp : shouldStorePath Bl.path = true
  · left
    simp [hsp]
  · right
    simp only [Bool.not_eq_true] at hsp
    simp [hsp]

/-- Witness for `pendingRedirect_consumed_once` at a concrete store. -/
theorem pendingRedirect_consumed_once_witness :
    (getRedirectPath 0
        { location := some
            { lastLocation := some "/reports", timestamp := 0,
              locationState := some
                { path := "/reports", search := "", hash := "", timestamp := 0 } }
          pending := some { redirectTo := "/dash", timestamp := 0 } }).1 = "/dash" := by
  exact (pendingRedirect_consumed_once
    { location := some
        { lastLocation := some "/reports", timestamp := 0,
          locationState := some
            { path := "/reports", search := "", hash := "", timestamp := 0 } }
      pending := some { redirectTo := "/dash", timestamp := 0 } }
    { redirectTo := "/dash", timestamp := 0 }
    { lastLocation := some "/reports", timestamp := 0,
      locationState := some
        { path := "/reports", search := "", hash := "", timestamp := 0 } }
    { path := "/reports", search := "", hash := "", timestamp := 0 } 0 0
    rfl (by decide) rfl rfl (by decide) (by decide)).1

/-- Claim C5 counterexample: the path `"/login"` is outside the spec's
capture-time exclusion set (root, auth callback, auth subtree), yet after
`storeLocation("/login", "?a=1", "#b")` the resolver returns the default
path `"/momentum"`, not the stored concatenation `"/login?a=1#b"`. -/
theorem storeLocation_roundTrip_login_fails :
    (getRedirectPath 0
        (storeLocation 0 "/login" "?a=1" "#b" { location := none, pending := none })).1
      = "/momentum" ∧
    "/momentum" ≠ "/login" ++ "?a=1" ++ "#b" := by
  exact ⟨by decide, by decide⟩

/-- Claim C5 (amended): for any path accepted by the resolver-side filter
`shouldStorePath` (which also rejects `"/login"` and `"/signup"`),
`storeLocation(p, s, h)` followed by `getRedirectPath()` with no pending
redirect set, before the 24-hour expiry, returns exactly `p ++ s ++ h`. -/
theorem storeLocation_roundTrip (p s h : String) (now now2 : Nat) (st : Store)
    (hsp : shouldStorePath p = true)
    (hpend : st.pending = none)
    (hfresh : ¬ (now2 - now > SESSION_TIMEOUT)) :
    (getRedirectPath now2 (storeLocation now p s h st)).1 = p ++ s ++ h := by
  rw [storeLocation_not_excluded now p s h st (shouldStorePath_not_captureExcluded hsp)]
  have hres := getRedirectPath_located now2
    { st with location := some (capturedSession now p s h) }
    (capturedSession now p s h)
    { path := p, search := s, hash := h, timestamp := now }
    hpend rfl hfresh rfl
  rw [hres]
  simp [hsp]

/-- Witness for `storeLocation_roundTrip` at the spec's Scenario A path. -/
theorem storeLocation_roundTrip_witness :
    (getRedirectPath 0
        (storeLocation 0 "/reports" "?filter=recent" "#summary"
          { location := none, pending := none })).1
      = "/reports" ++ "?filter=recent" ++ "#summary" := by
  exact storeLocation_roundTrip "/reports" "?filter=recent" "#summary" 0 0
    { location := none, pending := none } (by decide) rfl (by decide)

/-- Claim C6 (confirmed): `storeLocation` on the root path, the auth
callback path, or any path under `/auth/` is a no-op (the store is
unchanged, so no retrievable `LocationState` is produced), and a stored
location whose path lies in that set is never returned by
`getRedirectPath` when no pending redirect is set: the resolver falls
through to the default path. -/
theorem excluded_paths_never_redirect (p s h : String) (now now2 : Nat) (st : Store)
    (hex : p = "/" ∨ p = "/auth/callback" ∨ strStartsWith p "/auth/" = true) :
    storeLocation now p s h st = st ∧
    (st.location = none →
      (getStoredLocation now2 (storeLocation now p s h st)).1 = none) ∧
    (∀ σ : Store, σ.pending = none → ∀ ss ls,
      σ.location = some ss → ss.locationState = some ls →
      (ls.path = "/" ∨ ls.path = "/auth/callback" ∨ strStartsWith ls.path "/auth/" = true) →
      (getRedirectPath now2 σ).1 = getDefaultRedirectPath) := by
  have hexB : storeLocationExcluded p = true := by
    unfold storeLocationExcluded
    rcases hex with h1 | h1 | h1 <;> simp [h1]
  have hnoop : storeLocation now p s h st = st := by
    unfold storeLocation
    rw [hexB]
    rfl
  refine ⟨hnoop, ?_, ?_⟩
  · intro hloc
    rw [hnoop]
    unfold getStoredLocation
    rw [hloc]
  · intro σ hpend ss ls hloc hls hlex
    have hsp : shouldStorePath ls.path = false := by
      unfold shouldStorePath
      rw [excludedPaths_contains_eq]
      rcases hlex with h1 | h1 | h1 <;> simp [h1]
    by_cases hstale : now2 - ss.timestamp > SESSION_TIMEOUT
    · rw [getRedirectPath_no_pending now2 σ hpend]
      unfold getStoredLocation
      rw [hloc]
      simp [hstale]
    · rw [getRedirectPath_located now2 σ ss ls hpend hloc hstale hls]
      simp [hsp]

/-- Witness for `excluded_paths_never_redirect` at the auth callback path. -/
theorem excluded_paths_never_redirect_witness :
    storeLocation 3 "/auth/callback" "?x=1" "#y" { location := none, pending := none }
      = { location := none, pending := none } := by
  exact (excluded_paths_never_redirect "/auth/callback" "?x=1" "#y" 3 3
    { location := none, pending := none } (Or.inr (Or.inl rfl))).1

/-- Claim C10 (confirmed): the capture-time exclusion check (inlined in
`storeLocation`) is strictly smaller than the resolver-side filter
`shouldStorePath`.  For `"/login"` and `"/signup"`: `storeLocation`
stores a `LocationState` that `getStoredLocation` returns, yet
`getRedirectPath` (with no pending redirect, before expiry) never returns
that path as a redirect target and falls through to the default path,
because `shouldStorePath` additionally excludes these two paths. -/
theorem capture_resolver_filter_gap (p s h : String) (now now2 : Nat) (st : Store)
    (hp : p = "/login" ∨ p = "/signup")
    (hpend : st.pending = none)
    (hfresh : ¬ (now2 - now > SESSION_TIMEOUT)) :
    (getStoredLocation now2 (storeLocation now p s h st)).1
      = some { path := p, search := s, hash := h, timestamp := now } ∧
    (getRedirectPath now2 (storeLocation now p s h st)).1 = getDefaultRedirectPath ∧
    storeLocationExcluded p = false ∧
    shouldStorePath p = false := by
  have hexB : storeLocationExcluded p = false := by
    rcases hp with h1 | h1 <;> (rw [h1]; decide)
  have hsp : shouldStorePath p = false := by
    rcases hp with h1 | h1 <;> (rw [h1]; decide)
  rw [storeLocation_not_excluded now p s h st hexB]
  refine ⟨?_, ?_, hexB, hsp⟩
  · rw [getStoredLocation_some now2
      { st with location := some (capturedSession now p s h) }
      (capturedSession now p s h)
      { path := p, search := s, hash := h, timestamp := now } rfl hfresh rfl]
  · have hres := getRedirectPath_located now2
      { st with location := some (capturedSession now p s h) }
      (capturedSession now p s h)
      { path := p, search := s, hash := h, timestamp := now }
      hpend rfl hfresh rfl
    rw [hres]
    simp [hsp]

/-- Witness for `capture_resolver_filter_gap` at `"/login"`. -/
theorem capture_resolver_filter_gap_witness :
    (getRedirectPath 5
        (storeLocation 5 "/login" "" "" { location := none, pending := none })).1
      = getDefaultRedirectPath := by
  exact (capture_resolver_filter_gap "/login" "" "" 5 5
    { location := none, pending := none } (Or.inl rfl) rfl (by decide)).2.1

end SessionManager

namespace PortfolioService

/-- the error outcomes of `getCachedOrFetch` in `PortfolioService`
(connection-aware version in `App.tsx`): `dataUnavailable` models
`new Error('Database connection failed and no fallback data available')`
thrown when connection, cache, fallback data and retry are all missing or
failing; `fetchError` models the rethrow of the fetch function's own
error. -/
inductive CacheError where
  | dataUnavailable : CacheError
  | fetchError : String → CacheError
deriving DecidableEq, Repr

/-- a value of the in-memory cache map: `{ data, timestamp }`. -/
structure CacheEntry (T : Type) where
  data : T
  timestamp : Nat
deriving DecidableEq, Repr

/-- the mutable fields of the `PortfolioService` singleton that the cache
claims touch, plus two observability counters: `probeCount` counts
executions of `_testConnection` (each issues one supabase round trip) and
`fetchCount` counts invocations of the supplied fetch function. -/
structure ServiceState (T : Type) where
  cache : List (String × CacheEntry T)
  connectionRetries : Nat
  isConnected : Bool
  probeCount : Nat
  fetchCount : Nat
deriving DecidableEq, Repr

/-- `CACHE_DURATION = 5 * 60 * 1000` (5 minutes, ms). -/
def CACHE_DURATION : Nat := 5 * 60 * 1000

/-- `maxRetries = 3`. -/
def maxRetries : Nat := 3

/-- `this.cache.get(cacheKey)`: first binding wins, so consing a new entry
models `Map.set` overwriting. -/
def cacheGet {T : Type} (cache : List (String × CacheEntry T)) (key : String) :
    Option (CacheEntry T) :=
  cache.lookup key

/-- `testConnection()` in the sequential embedding: no probe is in flight
at call time, so `_testConnection()` runs and issues one round trip whose
outcome is the `world` connectivity (held fixed for the call).  Success
resets `connectionRetries`; failure leaves it unchanged.  The concurrent
de-duplication path (`this.connectionPromise`) is modelled separately in
the `ProbeDedup` namespace. -/
def testConnection {T : Type} (world : Bool) (st : ServiceState T) :
    Bool × ServiceState T :=
  if world then
    (true, { st with isConnected := true, connectionRetries := 0,
                     probeCount := st.probeCount + 1 })
  else
    (false, { st with isConnected := false, probeCount := st.probeCount + 1 })

/-- `retryConnection()`: refuses once `connectionRetries` reaches
`maxRetries`, otherwise increments the retry counter, waits the backoff
delay, and probes again. -/
def retryConnection {T : Type} (world : Bool) (st : ServiceState T) :
    Bool × ServiceState T :=
  if st.connectionRetries ≥ maxRetries then (false, st)
  else testConnection world { st with connectionRetries := st.connectionRetries + 1 }

/-- the fetch-and-store tail of `getCachedOrFetch`: invoke the fetch
function; on success store the entry with the current timestamp; on
failure fall back to any cache entry, then to `fallbackData`, then rethrow
the fetch error. -/
def fetchAndStore {T : Type} (now : Nat) (cacheKey : String)
    (fetchRes : Except String T) (fallbackData : Option T)
    (st : ServiceState T) : Except CacheError T × ServiceState T :=
  match fetchRes with
  | .ok d =>
    (.ok d, { st with fetchCount := st.fetchCount + 1,
                      cache := (cacheKey, { data := d, timestamp := now }) :: st.cache })
  | .error e =>
    let st1 : ServiceState T := { st with fetchCount := st.fetchCount + 1 }
    match cacheGet st1.cache cacheKey with
    | some cached => (.ok cached.data, st1)
    | none =>
      match fallbackData with
      | some fb => (.ok fb, st1)
      | none => (.error (.fetchError e), st1)

/-- the connected tail of `getCachedOrFetch`: serve a non-stale cache
entry when `forceFresh` is false, otherwise fetch. -/
def serveOrFetch {T : Type} (now : Nat) (cacheKey : String)
    (fetchRes : Except String T) (forceFresh : Bool) (fallbackData : Option T)
    (st : ServiceState T) : Except CacheError T × ServiceState T :=
  if forceFresh then fetchAndStore now cacheKey fetchRes fallbackData st
  else
    match cacheGet st.cache cacheKey with
    | some cached =>
      if now - cached.timestamp < CACHE_DURATION then (.ok cached.data, st)
      else fetchAndStore now cacheKey fetchRes fallbackData st
    | none => fetchAndStore now cacheKey fetchRes fallbackData st

/-- `getCachedOrFetch(cacheKey, fetchFn, forceFresh, fallbackData)` from
`App.tsx` (the connection-aware version): probe the connection first; when
disconnected serve any cache entry (even stale), else `fallbackData`, else
attempt one backoff retry and fail with `dataUnavailable` if it does not
reconnect; when connected serve a non-stale entry (unless `forceFresh`) or
invoke the fetch function. -/
def getCachedOrFetch {T : Type} (world : Bool) (now : Nat) (cacheKey : String)
    (fetchRes : Except String T) (forceFresh : Bool) (fallbackData : Option T)
    (st : ServiceState T) : Except CacheError T × ServiceState T :=
  match testConnection world st with
  | (connected, st1) =>
    if connected then serveOrFetch now cacheKey fetchRes forceFresh fallbackData st1
    else
      match cacheGet st1.cache cacheKey with
      | some cached => (.ok cached.data, st1)
      | none =>
        match fallbackData with
        | some fb => (.ok fb, st1)
        | none =>
          match retryConnection world st1 with
          | (retryConnected, st2) =>
            if retryConnected then
              serveOrFetch now cacheKey fetchRes forceFresh fallbackData st2
            else (.error .dataUnavailable, st2)

/-- the message the `Error` objects carry, for the UI-level model. -/
def CacheError.message : CacheError → String
  | .dataUnavailable => "Database connection failed and no fallback data available"
  | .fetchError e => e

end PortfolioService

namespace MomentumPortfolio

open PortfolioService

/-- result of one run of `loadPortfolioData` in `MomentumPortfolio.tsx`:
the data shown, the `isDataStale` flag, and the `error` banner. -/
structure LoadOutcome (D : Type) where
  portfolioData : D
  isDataStale : Bool
  error : Option String
deriving DecidableEq, Repr

/-- `loadPortfolioData` (inner service call path): `prevError` and
`prevStale` are the `error` and `isDataStale` state values captured by the
callback closure at its creation (the callback's dependency array omits
them).  On service success the data is stored and, when the captured
`error` was null, `isDataStale` is set to `false`; on a service throw the
handler sets an error banner, substitutes mock data and sets
`isDataStale := true`, but the trailing `if (!error)` block (still reading
the captured value) overwrites the flag with `false` when the captured
`error` was null. -/
def loadPortfolioData {D : Type} (prevError : Option String) (prevStale : Bool)
    (serviceResult : Except CacheError D) (mockData : D) : LoadOutcome D :=
  match serviceResult with
  | .ok d =>
    { portfolioData := d
      isDataStale := if prevError.isNone then false else prevStale
      error := none }
  | .error e =>
    { portfolioData := mockData
      isDataStale := if prevError.isNone then false else true
      error := some ("Failed to load portfolio data: " ++ e.message) }

end MomentumPortfolio

namespace PortfolioService

theorem cacheGet_cons_self {T : Type} (key : String) (e : CacheEntry T)
    (rest : List (String × CacheEntry T)) :
    cacheGet ((key, e) :: rest) key = some e := by
  simp [cacheGet, List.lookup]

theorem getCachedOrFetch_connected_freshHit {T : Type} (st : ServiceState T)
    (key : String) (now : Nat) (fr : Except String T) (fb : Option T)
    (e : CacheEntry T) (h : cacheGet st.cache key = some e)
    (hfresh : now - e.timestamp < CACHE_DURATION) :
    getCachedOrFetch true now key fr false fb st =
      (.ok e.data, { st with isConnected := true, connectionRetries := 0,
                             probeCount := st.probeCount + 1 }) := by
  unfold getCachedOrFetch testConnection serveOrFetch
  simp [h, hfresh]

theorem getCachedOrFetch_connected_miss {T : Type} (st : ServiceState T)
    (key : String) (now : Nat) (d : T) (fb : Option T)
    (h : cacheGet st.cache key = none) :
    getCachedOrFetch true now key (.ok d) false fb st =
      (.ok d, { st with isConnected := true, connectionRetries := 0,
                        probeCount := st.probeCount + 1,
                        fetchCount := st.fetchCount + 1,
                        cache := (key, { data := d, timestamp := now }) :: st.cache }) := by
  unfold getCachedOrFetch testConnection serveOrFetch fetchAndStore
  simp [h]

theorem getCachedOrFetch_connected_staleHit {T : Type} (st : ServiceState T)
    (key : String) (now : Nat) (d : T) (fb : Option T) (e : CacheEntry T)
    (h : cacheGet st.cache key = some e)
    (hstale : ¬ (now - e.timestamp < CACHE_DURATION)) :
    getCachedOrFetch true now key (.ok d) false fb st =
      (.ok d, { st with isConnected := true, connectionRetries := 0,
                        probeCount := st.probeCount + 1,
                        fetchCount := st.fetchCount + 1,
                        cache := (key, { data := d, timestamp := now }) :: st.cache }) := by
  unfold getCachedOrFetch testConnection serveOrFetch fetchAndStore
  simp [h, hstale]

/-- Claim C1 counterexample: with a non-stale cache entry for the key,
`forceFresh = false` and the backend reachable, `getCachedOrFetch`
returns the cached data without invoking the fetch function — but it does
make a network call: the connection probe issued at the top of every call
(one supabase round trip, counted by `probeCount`).  This refutes the
claim's "returns the cached data immediately without making any network
call". -/
theorem getCachedOrFetch_fresh_hit_probes :
    (getCachedOrFetch true 1000 "k" (Except.ok 7) false none
        { cache := [("k", { data := 42, timestamp := 0 })], connectionRetries := 0,
          isConnected := true, probeCount := 0, fetchCount := 0 }).1
      = Except.ok 42 ∧
    (getCachedOrFetch true 1000 "k" (Except.ok 7) false none
        { cache := [("k", { data := 42, timestamp := 0 })], connectionRetries := 0,
          isConnected := true, probeCount := 0, fetchCount := 0 }).2.fetchCount = 0 ∧
    (getCachedOrFetch true 1000 "k" (Except.ok 7) false none
        { cache := [("k", { data := 42, timestamp := 0 })], connectionRetries := 0,
          isConnected := true, probeCount := 0, fetchCount := 0 }).2.probeCount = 1 := by
  exact ⟨rfl, rfl, rfl⟩

/-- Claim C1 (amended): in the connection-aware `getCachedOrFetch`, a
connection-probe round trip is issued on every call; apart from that
probe, a fresh cache hit (`forceFresh = false`, entry younger than the
5-minute TTL) is served without invoking the supplied fetch function, two
calls within the TTL window invoke the fetch function exactly once (the
second returns the first call's data from cache), and a call after the
TTL window invokes the fetch function a second time. -/
theorem getCachedOrFetch_ttl :
    (∀ (T : Type) (st : ServiceState T) (key : String) (now : Nat)
       (fr : Except String T) (fb : Option T) (e : CacheEntry T),
       cacheGet st.cache key = some e → now - e.timestamp < CACHE_DURATION →
       (getCachedOrFetch true now key fr false fb st).1 = .ok e.data ∧
       (getCachedOrFetch true now key fr false fb st).2.fetchCount = st.fetchCount ∧
       (getCachedOrFetch true now key fr false fb st).2.probeCount = st.probeCount + 1) ∧
    (∀ (T : Type) (st : ServiceState T) (key : String) (t1 t2 : Nat)
       (d1 d2 : T) (fb1 fb2 : Option T),
       cacheGet st.cache key = none → t2 - t1 < CACHE_DURATION →
       (getCachedOrFetch true t1 key (.ok d1) false fb1 st).1 = .ok d1 ∧
       (getCachedOrFetch true t1 key (.ok d1) false fb1 st).2.fetchCount
         = st.fetchCount + 1 ∧
       (getCachedOrFetch true t2 key (.ok d2) false fb2
           (getCachedOrFetch true t1 key (.ok d1) false fb1 st).2).1 = .ok d1 ∧
       (getCachedOrFetch true t2 key (.ok d2) false fb2
           (getCachedOrFetch true t1 key (.ok d1) false fb1 st).2).2.fetchCount
         = st.fetchCount + 1) ∧
    (∀ (T : Type) (st : ServiceState T) (key : String) (t1 t3 : Nat)
       (d1 d3 : T) (fb1 fb3 : Option T),
       cacheGet st.cache key = none → ¬ (t3 - t1 < CACHE_DURATION) →
       (getCachedOrFetch true t3 key (.ok d3) false fb3
           (getCachedOrFetch true t1 key (.ok d1) false fb1 st).2).1 = .ok d3 ∧
       (getCachedOrFetch true t3 key (.ok d3) false fb3
           (getCachedOrFetch true t1 key (.ok d1) false fb1 st).2).2.fetchCount
         = st.fetchCount + 2) := by
  refine ⟨?_, ?_, ?_⟩
  · intro T st key now fr fb e h hfresh
    rw [getCachedOrFetch_connected_freshHit st key now fr fb e h hfresh]
    exact ⟨rfl, rfl, rfl⟩
  · intro T st key t1 t2 d1 d2 fb1 fb2 h hwin
    rw [getCachedOrFetch_connected_miss st key t1 d1 fb1 h]
    refine ⟨rfl, rfl, ?_, ?_⟩
    · rw [getCachedOrFetch_connected_freshHit _ key t2 (.ok d2) fb2
        { data := d1, timestamp := t1 } (cacheGet_cons_self key _ st.cache) hwin]
    · rw [getCachedOrFetch_connected_freshHit _ key t2 (.ok d2) fb2
        { data := d1, timestamp := t1 } (cacheGet_cons_self key _ st.cache) hwin]
  · intro T st key t1 t3 d1 d3 fb1 fb3 h hout
    rw [getCachedOrFetch_connected_miss st key t1 d1 fb1 h]
    constructor
    · rw [getCachedOrFetch_connected_staleHit _ key t3 d3 fb3
        { data := d1, timestamp := t1 } (cacheGet_cons_self key _ st.cache) hout]
    · rw [getCachedOrFetch_connected_staleHit _ key t3 d3 fb3
        { data := d1, timestamp := t1 } (cacheGet_cons_self key _ st.cache) hout]

/-- Witness for `getCachedOrFetch_ttl`: a fresh hit serves the cached 42
without invoking the fetch function. -/
theorem getCachedOrFetch_ttl_witness :
    (getCachedOrFetch true 10 "p" (Except.ok 5) false none
        { cache := [("p", { data := 42, timestamp := 0 })], connectionRetries := 0,
          isConnected := true, probeCount := 0, fetchCount := 0 }).1
      = Except.ok 42 := by
  exact (getCachedOrFetch_ttl.1 Nat
    { cache := [("p", { data := 42, timestamp := 0 })], connectionRetries := 0,
      isConnected := true, probeCount := 0, fetchCount := 0 }
    "p" 10 (Except.ok 5) none { data := 42, timestamp := 0 } rfl (by decide)).1

/-- Claim C2 (confirmed): when the connection probe reports disconnected,
`getCachedOrFetch` serves in fixed order: any cache entry for the key
(stale included) is returned without invoking the fetch function;
otherwise supplied `fallbackData` is returned; when neither exists the
call fails with the `dataUnavailable` error (after the bounded retry probe
also fails against the same unreachable backend). -/
theorem getCachedOrFetch_degraded :
    (∀ (T : Type) (st : ServiceState T) (key : String) (now : Nat)
       (fr : Except String T) (ff : Bool) (fb : Option T) (e : CacheEntry T),
       cacheGet st.cache key = some e →
       (getCachedOrFetch false now key fr ff fb st).1 = .ok e.data ∧
       (getCachedOrFetch false now key fr ff fb st).2.fetchCount = st.fetchCount) ∧
    (∀ (T : Type) (st : ServiceState T) (key : String) (now : Nat)
       (fr : Except String T) (ff : Bool) (f : T),
       cacheGet st.cache key = none →
       (getCachedOrFetch false now key fr ff (some f) st).1 = .ok f ∧
       (getCachedOrFetch false now key fr ff (some f) st).2.fetchCount = st.fetchCount) ∧
    (∀ (T : Type) (st : ServiceState T) (key : String) (now : Nat)
       (fr : Except String T) (ff : Bool),
       cacheGet st.cache key = none →
       (getCachedOrFetch false now key fr ff none st).1 = .error .dataUnavailable) := by
  refine ⟨?_, ?_, ?_⟩
  · intro T st key now fr ff fb e h
    unfold getCachedOrFetch testConnection
    simp [h]
  · intro T st key now fr ff f h
    unfold getCachedOrFetch testConnection
    simp [h]
  · intro T st key now fr ff h
    unfold getCachedOrFetch testConnection retryConnection
    simp only [Bool.false_eq_true, if_false, h]
    by_cases hc : maxRetries ≤ st.connectionRetries
    · simp [hc]
    · simp [hc, testConnection]

/-- Witness for `getCachedOrFetch_degraded`: disconnected with a (stale)
cache entry present serves the entry. -/
theorem getCachedOrFetch_degraded_witness :
    (getCachedOrFetch false 999999 "q" (Except.error "boom") false none
        { cache := [("q", { data := 3, timestamp := 0 })], connectionRetries := 0,
          isConnected := false, probeCount := 0, fetchCount := 0 }).1
      = Except.ok 3 := by
  exact (getCachedOrFetch_degraded.1 Nat
    { cache := [("q", { data := 3, timestamp := 0 })], connectionRetries := 0,
      isConnected := false, probeCount := 0, fetchCount := 0 }
    "q" 999999 (Except.error "boom") false none { data := 3, timestamp := 0 } rfl).1

end PortfolioService

namespace PortfolioService

open MomentumPortfolio

/-- Claim C3 counterexample: backend disconnected, the only cache entry
for the key is stale (written at time 0, read at time 1000000, far past
the 5-minute TTL), yet `getCachedOrFetch` serves it as a plain
`Except.ok` — byte-identical to what a fresh hit returns — and the UI
load routine then sets `isDataStale` to `false`.  No side channel or
wrapper flags the result as stale. -/
theorem stale_serve_not_flagged :
    (getCachedOrFetch false 1000000 "k" (Except.error "network down") false none
        { cache := [("k", { data := 7, timestamp := 0 })], connectionRetries := 3,
          isConnected := false, probeCount := 0, fetchCount := 0 }).1
      = Except.ok 7 ∧
    ¬ ((1000000 : Nat) - 0 < CACHE_DURATION) ∧
    (getCachedOrFetch false 1000000 "k" (Except.error "network down") false none
        { cache := [("k", { data := 7, timestamp := 0 })], connectionRetries := 3,
          isConnected := false, probeCount := 0, fetchCount := 0 }).1
      = (getCachedOrFetch true 1000 "k" (Except.ok 9) false none
          { cache := [("k", { data := 7, timestamp := 0 })], connectionRetries := 0,
            isConnected := true, probeCount := 0, fetchCount := 0 }).1 ∧
    (loadPortfolioData none false
        (getCachedOrFetch false 1000000 "k" (Except.error "network down") false none
          { cache := [("k", { data := 7, timestamp := 0 })], connectionRetries := 3,
            isConnected := false, probeCount := 0, fetchCount := 0 }).1
        0).isDataStale = false := by
  exact ⟨rfl, by decide, rfl, rfl⟩

/-- Claim C3 (amended): a stale cache entry served under a disconnected
backend is returned as a plain success value carrying only the entry's
data — indistinguishable from a fresh result, with no staleness wrapper
or side channel — and the UI load routine (`loadPortfolioData`, with the
closure-captured `error` state null, as after a clean first render) then
marks `isDataStale = false`.  Staleness is therefore not flagged to
callers. -/
theorem stale_serve_unflagged (T : Type) (st : ServiceState T) (key : String)
    (now : Nat) (fr : Except String T) (ff : Bool) (fb : Option T)
    (e : CacheEntry T) (prevStale : Bool) (mock : T)
    (h : cacheGet st.cache key = some e) :
    (getCachedOrFetch false now key fr ff fb st).1 = .ok e.data ∧
    (loadPortfolioData none prevStale
        (getCachedOrFetch false now key fr ff fb st).1 mock).isDataStale = false ∧
    (loadPortfolioData none prevStale
        (getCachedOrFetch false now key fr ff fb st).1 mock).portfolioData = e.data := by
  have hres := (getCachedOrFetch_degraded.1 T st key now fr ff fb e h).1
  rw [hres]
  exact ⟨rfl, rfl, rfl⟩

/-- Witness for `stale_serve_unflagged` at a concrete stale entry. -/
theorem stale_serve_unflagged_witness :
    (loadPortfolioData none true
        (getCachedOrFetch false 1000000 "w" (Except.error "down") false none
          { cache := [("w", { data := 11, timestamp := 0 })], connectionRetries := 0,
            isConnected := false, probeCount := 0, fetchCount := 0 }).1
        0).isDataStale = false := by
  exact (stale_serve_unflagged Nat
    { cache := [("w", { data := 11, timestamp := 0 })], connectionRetries := 0,
      isConnected := false, probeCount := 0, fetchCount := 0 }
    "w" 1000000 (Except.error "down") false none { data := 11, timestamp := 0 }
    true 0 rfl).2.1

end PortfolioService

namespace ProbeDedup

/-- state of the `connectionPromise` de-duplication mechanism of
`PortfolioService.testConnection` (`App.tsx`): the id of the in-flight
probe promise (if any), a fresh-id source, and a count of supabase round
trips issued.  The event loop is single-threaded, so the check-and-set
prefix of `testConnection` (up to its first `await`) runs atomically; this
function models exactly that synchronous prefix, returning the promise id
the caller will await. -/
structure PState where
  connectionPromise : Option Nat
  nextPromiseId : Nat
  roundTrips : Nat
deriving DecidableEq, Repr

/-- the synchronous prefix of `testConnection()`: reuse the in-flight
promise when one exists, otherwise start `_testConnection()` (one round
trip) and record its promise as in flight. -/
def testConnectionAcquire (st : PState) : Nat × PState :=
  match st.connectionPromise with
  | some p => (p, st)
  | none =>
    (st.nextPromiseId,
      { connectionPromise := some st.nextPromiseId
        nextPromiseId := st.nextPromiseId + 1
        roundTrips := st.roundTrips + 1 })

/-- `n` callers entering `testConnection()` one after another on the event
loop, before the in-flight probe resolves. -/
def acquireMany : Nat → PState → List Nat × PState
  | 0, st => ([], st)
  | n + 1, st =>
    ((testConnectionAcquire st).1 :: (acquireMany n (testConnectionAcquire st).2).1,
     (acquireMany n (testConnectionAcquire st).2).2)

theorem testConnectionAcquire_inflight (st : PState) (p : Nat)
    (h : st.connectionPromise = some p) : testConnectionAcquire st = (p, st) := by
  unfold testConnectionAcquire
  rw [h]

end ProbeDedup

namespace ConnectionManager

/-- `ConnectionHealth` from `src/lib/connectionManager.ts` (`lastCheck` as
a millisecond timestamp). -/
structure ConnectionHealth where
  isConnected : Bool
  lastCheck : Option Nat
  retryCount : Nat
  error : Option String
  latency : Option Nat
deriving DecidableEq, Repr

/-- the `ConnectionManager` singleton state plus a round-trip counter. -/
structure CMState where
  health : ConnectionHealth
  roundTrips : Nat
deriving DecidableEq, Repr

/-- `MAX_RETRIES = 5`. -/
def MAX_RETRIES : Nat := 5

/-- `RETRY_DELAYS = [1000, 2000, 4000, 8000, 16000]`. -/
def RETRY_DELAYS : List Nat := [1000, 2000, 4000, 8000, 16000]

/-- `HEALTH_CHECK_INTERVAL = 30000`. -/
def HEALTH_CHECK_INTERVAL : Nat := 30000

/-- the issue of the probe query inside `testConnection()` — the part
before the `await`.  `ConnectionManager.testConnection` keeps no record of
an in-flight probe, so every entry issues its own round trip. -/
def testConnectionStart (st : CMState) : CMState :=
  { st with roundTrips := st.roundTrips + 1 }

/-- the continuation of `testConnection()` after the `await`: on success
reset `retryCount` and record latency; on a query error increment
`retryCount` and clear latency (the error-result branch of the source). -/
def testConnectionFinish (ok : Bool) (now lat : Nat) (errMsg : String)
    (st : CMState) : Bool × CMState :=
  if ok then
    (true, { st with health :=
      { isConnected := true, lastCheck := some now, retryCount := 0,
        error := none, latency := some lat } })
  else
    (false, { st with health :=
      { isConnected := false, lastCheck := some now,
        retryCount := st.health.retryCount + 1,
        error := some errMsg, latency := none } })

/-- one sequential run of `testConnection()`. -/
def testConnection (ok : Bool) (now lat : Nat) (errMsg : String)
    (st : CMState) : Bool × CMState :=
  testConnectionFinish ok now lat errMsg (testConnectionStart st)

/-- `RETRY_DELAYS[Math.min(retryCount, RETRY_DELAYS.length - 1)]`. -/
def retryDelay (retryCount : Nat) : Nat :=
  RETRY_DELAYS.getD (min retryCount (RETRY_DELAYS.length - 1)) 0

/-- `retryConnection()`: gives up (no probe, no delay) once `retryCount`
reaches `MAX_RETRIES`; otherwise waits the scheduled delay and probes.
Returns (result, delay waited, state). -/
def retryConnection (ok : Bool) (now lat : Nat) (errMsg : String)
    (st : CMState) : Bool × Nat × CMState :=
  if st.health.retryCount ≥ MAX_RETRIES then (false, 0, st)
  else
    match testConnection ok now lat errMsg st with
    | (r, st1) => (r, retryDelay st.health.retryCount, st1)

end ConnectionManager

namespace ProbeDedup

/-- `n` callers as a fold, exposing projections for proofs. -/
theorem acquireMany_succ (n : Nat) (st : PState) :
    acquireMany (n + 1) st =
      ((testConnectionAcquire st).1 :: (acquireMany n (testConnectionAcquire st).2).1,
       (acquireMany n (testConnectionAcquire st).2).2) := by
  rfl

end ProbeDedup

/-- Claim C7 counterexample: `ConnectionManager.testConnection`
(`connectionManager.ts:53-111`) keeps no in-flight-probe record, so a
second caller entering `testConnection` while the first probe is still
awaiting its reply issues a second supabase round trip: two concurrent
calls produce two round trips, not one. -/
theorem cm_probe_not_deduplicated :
    (ConnectionManager.testConnection false 5 0 "network error"
        (ConnectionManager.testConnectionStart
          { health := { isConnected := false, lastCheck := none, retryCount := 0,
                        error := none, latency := none }
            roundTrips := 0 })).2.roundTrips = 2 := by
  rfl

/-- Claim C7 (amended): the repository has two probes.
`PortfolioService.testConnection` (`App.tsx`) de-duplicates: for every
`n`, `n` callers entering while a probe promise is in flight all receive
that same promise (hence await the same outcome) and the state — round
trips included — is unchanged, so exactly the one already-issued round
trip is performed.  `ConnectionManager.testConnection`
(`connectionManager.ts`) does not de-duplicate: every entry issues its own
round trip. -/
theorem probe_collapse :
    (∀ (st : ProbeDedup.PState) (p n : Nat),
       st.connectionPromise = some p →
       ProbeDedup.acquireMany n st = (List.replicate n p, st)) ∧
    (∀ (ok : Bool) (now lat : Nat) (msg : String) (st : ConnectionManager.CMState),
       (ConnectionManager.testConnection ok now lat msg st).2.roundTrips
         = st.roundTrips + 1) := by
  constructor
  · intro st p n h
    induction n with
    | zero => rfl
    | succ n ih =>
      rw [ProbeDedup.acquireMany_succ,
        ProbeDedup.testConnectionAcquire_inflight st p h]
      simp only [ih]
      rfl
  · intro ok now lat msg st
    unfold ConnectionManager.testConnection ConnectionManager.testConnectionFinish
      ConnectionManager.testConnectionStart
    by_cases hok : ok = true
    · simp [hok]
    · simp only [Bool.not_eq_true] at hok
      simp [hok]

/-- Witness for `probe_collapse`: three callers during one in-flight probe
all get promise 0 and no state change. -/
theorem probe_collapse_witness :
    ProbeDedup.acquireMany 3
        { connectionPromise := some 0, nextPromiseId := 1, roundTrips := 1 }
      = (List.replicate 3 0,
         { connectionPromise := some 0, nextPromiseId := 1, roundTrips := 1 }) := by
  exact probe_collapse.1
    { connectionPromise := some 0, nextPromiseId := 1, roundTrips := 1 } 0 3 rfl

namespace ConnectionManager

theorem retryDelay_closedForm (n : Nat) :
    retryDelay n = min (1000 * 2 ^ n) 16000 := by
  match n with
  | 0 => decide
  | 1 => decide
  | 2 => decide
  | 3 => decide
  | 4 => decide
  | n + 5 =>
    have h2 : (16000 : Nat) ≤ 1000 * 2 ^ (n + 5) := by
      have h32 : (32 : Nat) ≤ 2 ^ (n + 5) := by
        calc (32 : Nat) = 2 ^ 5 := by norm_num
        _ ≤ 2 ^ (n + 5) := Nat.pow_le_pow_right (by norm_num) (by omega)
      calc (16000 : Nat) ≤ 1000 * 32 := by norm_num
      _ ≤ 1000 * 2 ^ (n + 5) := Nat.mul_le_mul_left 1000 h32
    unfold retryDelay
    rw [show min (n + 5) (RETRY_DELAYS.length - 1) = 4 by
      simp only [RETRY_DELAYS, List.length]
      omega]
    rw [min_eq_right h2]
    decide

end ConnectionManager

/-- Claim C8 (confirmed): the reconnection schedule of
`ConnectionManager` is exactly `delay[n] = min(1000 * 2^n, 16000)` for
attempt index `n`, it is non-decreasing, `retryConnection` gives up
without issuing any probe once `retryCount` reaches `MAX_RETRIES = 5`, and
the periodic health check (which calls `testConnection` unconditionally on
its 30-second interval) still issues its probe regardless of the retry
counter. -/
theorem backoff_schedule :
    (∀ n, ConnectionManager.retryDelay n = min (1000 * 2 ^ n) 16000) ∧
    (∀ n m, n ≤ m →
       ConnectionManager.retryDelay n ≤ ConnectionManager.retryDelay m) ∧
    (∀ (ok : Bool) (now lat : Nat) (msg : String) (st : ConnectionManager.CMState),
       ConnectionManager.MAX_RETRIES ≤ st.health.retryCount →
       ConnectionManager.retryConnection ok now lat msg st = (false, 0, st)) ∧
    (∀ (ok : Bool) (now lat : Nat) (msg : String) (st : ConnectionManager.CMState),
       (ConnectionManager.testConnection ok now lat msg st).2.roundTrips
         = st.roundTrips + 1) := by
  refine ⟨ConnectionManager.retryDelay_closedForm, ?_, ?_, ?_⟩
  · intro n m hnm
    rw [ConnectionManager.retryDelay_closedForm n,
      ConnectionManager.retryDelay_closedForm m]
    exact min_le_min
      (Nat.mul_le_mul_left 1000 (Nat.pow_le_pow_right (by norm_num) hnm)) le_rfl
  · intro ok now lat msg st h
    unfold ConnectionManager.retryConnection
    simp [h]
  · intro ok now lat msg st
    unfold ConnectionManager.testConnection ConnectionManager.testConnectionFinish
      ConnectionManager.testConnectionStart
    by_cases hok : ok = true
    · simp [hok]
    · simp only [Bool.not_eq_true] at hok
      simp [hok]

/-- Witness for `backoff_schedule`: at `retryCount = 5` the retry gives up
with no probe and no delay. -/
theorem backoff_schedule_witness :
    ConnectionManager.retryConnection true 0 1 "x"
        { health := { isConnected := false, lastCheck := none, retryCount := 5,
                      error := some "down", latency := none }
          roundTrips := 0 }
      = (false, 0,
         { health := { isConnected := false, lastCheck := none, retryCount := 5,
                       error := some "down", latency := none }
           roundTrips := 0 }) := by
  exact backoff_schedule.2.2.1 true 0 1 "x"
    { health := { isConnected := false, lastCheck := none, retryCount := 5,
                  error := some "down", latency := none }
      roundTrips := 0 } (by decide)

namespace Realtime

/-- state of `PortfolioService`'s real-time machinery
(`App.tsx:822-956`): one shared `subscribers` set (each entry records the
callback id and the `userId` argument of the `subscribeToUpdates` call
that registered it — the scope the caller subscribed with), the
user-scoped channel (storing the `userId` its creating call captured) and
the public channel (storing the `userId` closure value its creating call
captured, which gates its broadcast). -/
structure RTState where
  subscribers : List (Nat × Option String)
  userChannel : Option String
  publicChannelUserId : Option (Option String)
deriving DecidableEq, Repr

/-- the service before any subscription. -/
def emptyRT : RTState :=
  { subscribers := [], userChannel := none, publicChannelUserId := none }

/-- `subscribeToUpdates(callback, quarter, userId)`: adds the callback to
the shared set; lazily creates the user channel when `userId` is given and
none exists; lazily creates the public channel, capturing this call's
`userId` in its handler closure. -/
def subscribeToUpdates (cb : Nat) (userId : Option String) (st : RTState) : RTState :=
  let st1 : RTState := { st with subscribers := st.subscribers ++ [(cb, userId)] }
  let st2 : RTState :=
    match userId, st1.userChannel with
    | some u, none => { st1 with userChannel := some u }
    | _, _ => st1
  match st2.publicChannelUserId with
  | none => { st2 with publicChannelUserId := some userId }
  | some _ => st2

/-- the user-channel handler on a matching change: after clearing the
user's cache it broadcasts the refreshed data to EVERY callback in the
shared set (`this.subscribers.forEach`), regardless of the scope each
subscribed with.  Returns the ids notified. -/
def deliverUserEvent (st : RTState) : List Nat :=
  match st.userChannel with
  | some _ => st.subscribers.map Prod.fst
  | none => []

/-- the public-channel handler on a matching change: it broadcasts to
every callback in the shared set only when the call that created the
channel had no `userId` (`if (!userId)`), and to none otherwise. -/
def deliverPublicEvent (st : RTState) : List Nat :=
  match st.publicChannelUserId with
  | some none => st.subscribers.map Prod.fst
  | some (some _) => []
  | none => []

end Realtime

/-- Claim C9 counterexample: subscriber 1 registers with userId "u"
(creating both channels), subscriber 2 registers with no userId — a
public-scope-only listener.  A notification on the user-scoped channel is
then delivered to both callbacks, subscriber 2 included, so a user-scoped
notification does reach a listener subscribed only to the public scope.
(Symmetrically, the public channel here was created by the userId call,
so its notifications reach no one — including public-scope subscriber 2.) -/
theorem realtime_cross_scope_delivery :
    (Realtime.subscribeToUpdates 2 none
        (Realtime.subscribeToUpdates 1 (some "u") Realtime.emptyRT)).subscribers
      = [(1, some "u"), (2, none)] ∧
    Realtime.deliverUserEvent
        (Realtime.subscribeToUpdates 2 none
          (Realtime.subscribeToUpdates 1 (some "u") Realtime.emptyRT))
      = [1, 2] ∧
    Realtime.deliverPublicEvent
        (Realtime.subscribeToUpdates 2 none
          (Realtime.subscribeToUpdates 1 (some "u") Realtime.emptyRT))
      = [] := by
  exact ⟨rfl, rfl, rfl⟩

/-- Claim C9 (amended): all callbacks share a single subscriber set.  A
notification on the user-scoped channel is broadcast to every registered
callback — whatever scope each subscribed with — so user-scoped
notifications do fall through to public-scope listeners.  A notification
on the public channel is broadcast to every registered callback when the
call that created that channel had no `userId`, and to no callback at all
otherwise. -/
theorem realtime_broadcast_all (st : Realtime.RTState) :
    (∀ u, st.userChannel = some u →
       Realtime.deliverUserEvent st = st.subscribers.map Prod.fst) ∧
    (st.publicChannelUserId = some none →
       Realtime.deliverPublicEvent st = st.subscribers.map Prod.fst) ∧
    (∀ u, st.publicChannelUserId = some (some u) →
       Realtime.deliverPublicEvent st = []) := by
  refine ⟨?_, ?_, ?_⟩
  · intro u h
    unfold Realtime.deliverUserEvent
    rw [h]
  · intro h
    unfold Realtime.deliverPublicEvent
    rw [h]
  · intro u h
    unfold Realtime.deliverPublicEvent
    rw [h]

/-- Witness for `realtime_broadcast_all`: with the user channel open, a
user-scoped notification reaches the whole shared set. -/
theorem realtime_broadcast_all_witness :
    Realtime.deliverUserEvent
        { subscribers := [(1, some "u"), (2, none)], userChannel := some "u",
          publicChannelUserId := some (some "u") }
      = [1, 2] := by
  exact (realtime_broadcast_all
    { subscribers := [(1, some "u"), (2, none)], userChannel := some "u",
      publicChannelUserId := some (some "u") }).1 "u" rfl
